import Mathlib

/-!
Verification development for the projector stream-admin orchestrator
(Go package `manager`, file modelling `ProjectorAdmin`, `adminWorker` and
the timestamp arithmetic helpers).

Machine integers (uint16/uint32/uint64) are modelled as `Nat`; the only
place the Go code truncates is the `uint16(vbno)` casts at the `Append`
call sites, modelled as `% 65536`.  Goroutine scheduling is modelled by
quantifying over the completion order of the per-node workers (the order
in which the orchestrator receives them on the results channel), and a
worker's bounded wall-clock retry loop is modelled by the list of
client-call outcomes it observes before the elapsed-time ceiling passes
(an exhausted list means the ceiling was reached).
-/

/-- Modelled from the spec: the default pool name constant
`DEFAULT_POOL_NAME` (defined outside the given source slice). -/
def DEFAULT_POOL_NAME : String := "default"

/-- Modelled from the spec: the fixed number of partitions (vbuckets) per
bucket, `NUM_VB` (defined outside the given source slice; the spec's
scenario uses partitions 0-1023). -/
def NUM_VB : Nat := 1024

/-- Snapshot range of one partition entry (protobuf `Snapshot`, accessed
via `GetStart`/`GetEnd`). -/
structure Snapshot where
  start : Nat
  end_ : Nat
deriving DecidableEq, Repr

/-- protobuf `TsVbuuid`: a per-bucket timestamp, one entry per listed
partition number. -/
structure TsVbuuid where
  pool : String
  bucket : String
  vbnos : List Nat
  seqnos : List Nat
  vbuuids : List Nat
  snapshots : List Snapshot
deriving DecidableEq, Repr

/-- `protobuf.NewTsVbuuid(pool, bucket, maxVbs)`: an empty timestamp
(`maxVbs` is only a capacity hint in the source). -/
def NewTsVbuuid (pool bucket : String) (maxVbs : Nat) : TsVbuuid :=
  { pool := pool, bucket := bucket, vbnos := [], seqnos := [], vbuuids := [], snapshots := [] }

/-- `TsVbuuid.Append(vbno, seqno, vbuuid, start, end)`: append one
partition entry.  The Go signature takes `vbno` as `uint16`; callers cast
with `uint16(...)`, modelled as `% 65536` at the call sites. -/
def TsVbuuid.Append (ts : TsVbuuid) (vbno seqno vbuuid sStart sEnd : Nat) : TsVbuuid :=
  { ts with
    vbnos := ts.vbnos ++ [vbno]
    seqnos := ts.seqnos ++ [seqno]
    vbuuids := ts.vbuuids ++ [vbuuid]
    snapshots := ts.snapshots ++ [⟨sStart, sEnd⟩] }

/-- The value fields `(seqno, vbuuid, snapshot start, snapshot end)` of
the entry at position `i` of a timestamp (Go indexes the parallel slices
directly; out-of-range reads, impossible for timestamps built by
`Append`, are given protobuf zero values here). -/
def tsEntry (ts : TsVbuuid) (i : Nat) : Nat × Nat × Nat × Nat :=
  (ts.seqnos.getD i 0, ts.vbuuids.getD i 0,
   (ts.snapshots.getD i ⟨0, 0⟩).start, (ts.snapshots.getD i ⟨0, 0⟩).end_)

/-- `findTimestampForBucket`: first timestamp in the list whose bucket
matches (Go returns `nil` when none does). -/
def findTimestampForBucket : List TsVbuuid → String → Option TsVbuuid
  | [], _ => none
  | ts :: rest, bucket =>
    if ts.bucket = bucket then some ts else findTimestampForBucket rest bucket

/-- Scan of `ts.GetVbnos()` for `vbno`, carrying the running index
(the loop body of `findTimestampOffsetForVb`). -/
def offsetSearch (vbno : Nat) : List Nat → Nat → Int
  | [], _ => -1
  | v :: rest, i => if v = vbno then Int.ofNat i else offsetSearch vbno rest (i + 1)

/-- `findTimestampOffsetForVb`: offset of `vbno` inside the timestamp's
partition list, `-1` when absent or when the timestamp is `nil`. -/
def findTimestampOffsetForVb (ts : Option TsVbuuid) (vbno : Nat) : Int :=
  match ts with
  | none => -1
  | some ts => offsetSearch vbno ts.vbnos 0

/-- One partition entry as appended by the loop body of
`recomputeRequestTimestamp`. -/
structure TsEntry where
  vbno : Nat
  seqno : Nat
  vbuuid : Nat
  snapStart : Nat
  snapEnd : Nat
deriving DecidableEq, Repr

/-- Loop body of `recomputeRequestTimestamp` at loop variables
`(i, vbno)`: when the rollback timestamp has an offset for `vbno`
(`offset != -1`) the rollback entry at that offset is used, otherwise the
original request entry at position `i` is copied.  `vbno` is appended
through the `uint16(vbno)` cast. -/
def entryOf (rollbackTs : Option TsVbuuid) (requestTs : TsVbuuid) (vbno i : Nat) : TsEntry :=
  match findTimestampOffsetForVb rollbackTs vbno, rollbackTs with
  | Int.ofNat off, some rb =>
    ⟨vbno % 65536, rb.seqnos.getD off 0, rb.vbuuids.getD off 0,
     (rb.snapshots.getD off ⟨0, 0⟩).start, (rb.snapshots.getD off ⟨0, 0⟩).end_⟩
  | _, _ =>
    ⟨vbno % 65536, requestTs.seqnos.getD i 0, requestTs.vbuuids.getD i 0,
     (requestTs.snapshots.getD i ⟨0, 0⟩).start, (requestTs.snapshots.getD i ⟨0, 0⟩).end_⟩

/-- The `for i, vbno := range requestTs.GetVbnos()` loop of
`recomputeRequestTimestamp`, appending one entry per partition number. -/
def recomputeAux (rt : Option TsVbuuid) (rq : TsVbuuid) : List Nat → Nat → TsVbuuid → TsVbuuid
  | [], _, acc => acc
  | vbno :: rest, i, acc =>
    let e := entryOf rt rq vbno i
    recomputeAux rt rq rest (i + 1) (acc.Append e.vbno e.seqno e.vbuuid e.snapStart e.snapEnd)

/-- `recomputeRequestTimestamp`: reconcile a request timestamp against the
rollback timestamps returned by the projector, substituting the rollback
position for each partition that has one. -/
def recomputeRequestTimestamp (requestTs : TsVbuuid) (rollbackTimestamps : List TsVbuuid) : TsVbuuid :=
  let newTs := NewTsVbuuid DEFAULT_POOL_NAME requestTs.bucket requestTs.vbnos.length
  let rollbackTs := findTimestampForBucket rollbackTimestamps requestTs.bucket
  recomputeAux rollbackTs requestTs requestTs.vbnos 0 newTs

/-- The entries produced by the recompute loop over the remaining
partition list, starting at request index `i` (proof helper). -/
def entriesFor (rt : Option TsVbuuid) (rq : TsVbuuid) : List Nat → Nat → List TsEntry
  | [], _ => []
  | vbno :: rest, i => entryOf rt rq vbno i :: entriesFor rt rq rest (i + 1)

/-- Append a list of entries to a timestamp (proof helper). -/
def appendEntries (acc : TsVbuuid) : List TsEntry → TsVbuuid
  | [] => acc
  | e :: rest => appendEntries (acc.Append e.vbno e.seqno e.vbuuid e.snapStart e.snapEnd) rest

theorem recomputeAux_eq_appendEntries (rt : Option TsVbuuid) (rq : TsVbuuid) :
    ∀ (l : List Nat) (i : Nat) (acc : TsVbuuid),
      recomputeAux rt rq l i acc = appendEntries acc (entriesFor rt rq l i) := by
  intro l
  induction l with
  | nil => intro i acc; rfl
  | cons vbno rest ih => intro i acc; simp [recomputeAux, entriesFor, appendEntries, ih]

theorem appendEntries_fields (es : List TsEntry) : ∀ acc : TsVbuuid,
    (appendEntries acc es).pool = acc.pool ∧
    (appendEntries acc es).bucket = acc.bucket ∧
    (appendEntries acc es).vbnos = acc.vbnos ++ es.map (fun e => e.vbno) ∧
    (appendEntries acc es).seqnos = acc.seqnos ++ es.map (fun e => e.seqno) ∧
    (appendEntries acc es).vbuuids = acc.vbuuids ++ es.map (fun e => e.vbuuid) ∧
    (appendEntries acc es).snapshots
      = acc.snapshots ++ es.map (fun e => (⟨e.snapStart, e.snapEnd⟩ : Snapshot)) := by
  induction es with
  | nil => intro acc; simp [appendEntries]
  | cons e rest ih =>
    intro acc
    have h := ih (acc.Append e.vbno e.seqno e.vbuuid e.snapStart e.snapEnd)
    simpa [appendEntries, TsVbuuid.Append] using h

theorem entriesFor_length (rt : Option TsVbuuid) (rq : TsVbuuid) :
    ∀ (l : List Nat) (i : Nat), (entriesFor rt rq l i).length = l.length := by
  intro l
  induction l with
  | nil => intro i; rfl
  | cons vbno rest ih => intro i; simp [entriesFor, ih]

theorem entriesFor_getD (rt : Option TsVbuuid) (rq : TsVbuuid) :
    ∀ (l : List Nat) (i j : Nat), j < l.length →
      (entriesFor rt rq l i).getD j ⟨0, 0, 0, 0, 0⟩ = entryOf rt rq (l.getD j 0) (i + j) := by
  intro l
  induction l with
  | nil => intro i j h; simp at h
  | cons vbno rest ih =>
    intro i j h
    cases j with
    | zero => rfl
    | succ j =>
      have hj : j < rest.length := by simpa using h
      have h2 := ih (i + 1) j hj
      have harith : i + 1 + j = i + (j + 1) := by omega
      rw [harith] at h2
      simpa [entriesFor] using h2

/-- The error codes attached by `NewError`/`NewError2`/`NewError4` to
terminal worker and environment failures (the severity, category and
cause fields of `Error` are elided: every retry decision in the source
reads only `.code`). -/
inductive ErrCode where
  | ERROR_STREAM_REQUEST_ERROR
  | ERROR_STREAM_WRONG_VBUCKET
  | ERROR_STREAM_INVALID_TIMESTAMP
  | ERROR_STREAM_INVALID_KVADDRS
  | ERROR_STREAM_PROJECTOR_TIMEOUT
  | ERROR_STREAM_INCONSISTENT_VBMAP
  | ERROR_STREAM_FEEDER
  | ERROR_STREAM_STREAM_END
deriving DecidableEq, Repr

/-- `Error`, reduced to the `code` field consulted by the orchestrator. -/
structure Err where
  code : ErrCode
deriving DecidableEq, Repr

/-- The outcome of one `adminWorker` as read by the orchestrator from the
results channel: its server, its accumulated active timestamps, and its
terminal error (`none` on success or silent kill). -/
structure WorkerResult where
  server : String
  activeTimestamps : List TsVbuuid
  err : Option Err
deriving DecidableEq, Repr

/-- Inner scan of `ts.GetVbnos()` inside `validateActiveVb`, carrying the
`found` flag; `none` models the early `return false` on a duplicate. -/
def scanVbnos (vb : Nat) : List Nat → Bool → Option Bool
  | [], found => some found
  | v :: rest, found =>
    if vb = v then
      if found then none else scanVbnos vb rest true
    else scanVbnos vb rest found

/-- Scan of all active timestamps for one `(bucket, vb)` pair inside
`validateActiveVb` (timestamps of other buckets are skipped). -/
def scanTimestamps (bucket : String) (vb : Nat) : List TsVbuuid → Bool → Option Bool
  | [], found => some found
  | ts :: rest, found =>
    if ts.bucket = bucket then
      match scanVbnos vb ts.vbnos found with
      | none => none
      | some found2 => scanTimestamps bucket vb rest found2
    else scanTimestamps bucket vb rest found

/-- The per-`(bucket, vb)` body of `validateActiveVb`: false on a
duplicate active entry or when no entry was found. -/
def checkActiveVb (activeTimestamps : List TsVbuuid) (bucket : String) (vb : Nat) : Bool :=
  match scanTimestamps bucket vb activeTimestamps false with
  | none => false
  | some found => found

/-- `ProjectorAdmin.validateActiveVb`: every requested bucket must have
every partition `0 .. NUM_VB-1` covered by exactly one active-timestamp
entry. -/
def validateActiveVb (buckets : List String) (activeTimestamps : List TsVbuuid) : Bool :=
  buckets.all fun bucket =>
    (List.range NUM_VB).all fun vb => checkActiveVb activeTimestamps bucket vb

/-- Specification-side count: how many active-timestamp entries (across
all timestamps of the bucket, duplicates within one timestamp included)
cover partition `vb`. -/
def activeVbCount (activeTimestamps : List TsVbuuid) (bucket : String) (vb : Nat) : Nat :=
  ((activeTimestamps.filter fun ts => ts.bucket = bucket).map fun ts => ts.vbnos.count vb).sum

/-- Result of the orchestrator's fan-in loop over the results channel:
either every worker reported without error, or the loop stopped at the
first worker error with the listed workers still unreported. -/
inductive JoinResult where
  | allDone (ats : List TsVbuuid)
  | errorAt (e : Err) (ats : List TsVbuuid) (remaining : List WorkerResult)
deriving DecidableEq, Repr

/-- The `for len(workers) != 0 { worker := <-donech ... }` fan-in loop of
`AddIndexToStream`/`RestartStreamIfNecessary`, over the workers'
completion order: active timestamps are accumulated before the error
check, and the loop breaks at the first worker error. -/
def joinWorkers : List WorkerResult → List TsVbuuid → JoinResult
  | [], acc => .allDone acc
  | r :: rest, acc =>
    match r.err with
    | none => joinWorkers rest (acc ++ r.activeTimestamps)
    | some e => .errorAt e (acc ++ r.activeTimestamps) rest

/-- The fan-in loop of `DeleteIndexFromStream`/`RepairEndpointForStream`
(no timestamp accumulation): `none` when every worker reported no error,
otherwise the first error and the workers still unreported. -/
def joinPlain : List WorkerResult → Option (Err × List WorkerResult)
  | [] => none
  | r :: rest =>
    match r.err with
    | none => joinPlain rest
    | some e => some (e, rest)

/-- Result of a `GetNodeListForBuckets`/`GetNodeListForTimestamps` call. -/
inductive NodesResult (α : Type) where
  | ok (nodes : List α)
  | err (e : Err)
deriving DecidableEq, Repr

/-- Environment of one orchestrator round: the topology resolver's answer
and, when it succeeds, the spawned workers' results in the order the
orchestrator receives them on the results channel. -/
structure RoundEnv where
  nodeList : NodesResult String
  results : List WorkerResult
deriving DecidableEq, Repr

/-- Environment of one `RestartStreamIfNecessary` round: here the
topology resolver returns per-node timestamp lists. -/
structure RestartRoundEnv where
  nodeList : NodesResult (String × List TsVbuuid)
  results : List WorkerResult
deriving DecidableEq, Repr

/-- Whether an orchestrator operation has returned, and with which error
(`done none` is the `nil` success return); `pending` means the supplied
round environments were exhausted while the retry loop would continue. -/
inductive RunResult where
  | pending
  | done (err : Option Err)
deriving DecidableEq, Repr

/-- Observable trace of an orchestrator operation: its return value, the
timestamps handed to `monitorStream`, the number of topology-resolver
calls, the servers for which workers were spawned, and the servers sent a
kill signal. -/
structure RunTrace where
  result : RunResult
  monitored : List TsVbuuid
  topoCalls : Nat
  spawned : List String
  kills : List String
deriving DecidableEq, Repr

/-- The `for shouldRetry` round loop of `AddIndexToStream`: join the
workers; on a worker error kill the unreported workers and either return
the error (unclassified code) or start a fresh round (the four retryable
codes); with no worker error run `validateActiveVb` and either register
the active timestamps with the monitor and return `nil`, or retry. -/
def addIndexRounds (buckets : List String) : List RoundEnv → RunTrace
  | [] => ⟨.pending, [], 0, [], []⟩
  | env :: rest =>
    match env.nodeList with
    | .err e => ⟨.done (some e), [], 1, [], []⟩
    | .ok nodes =>
      match joinWorkers env.results [] with
      | .allDone ats =>
        if validateActiveVb buckets ats then
          ⟨.done none, ats, 1, nodes, []⟩
        else
          let t := addIndexRounds buckets rest
          ⟨t.result, t.monitored, t.topoCalls + 1, nodes ++ t.spawned, t.kills⟩
      | .errorAt e _ rem =>
        if e.code ≠ .ERROR_STREAM_WRONG_VBUCKET ∧ e.code ≠ .ERROR_STREAM_INVALID_TIMESTAMP ∧
            e.code ≠ .ERROR_STREAM_INVALID_KVADDRS ∧ e.code ≠ .ERROR_STREAM_PROJECTOR_TIMEOUT then
          ⟨.done (some e), [], 1, nodes, rem.map fun r => r.server⟩
        else
          let t := addIndexRounds buckets rest
          ⟨t.result, t.monitored, t.topoCalls + 1, nodes ++ t.spawned,
           (rem.map fun r => r.server) ++ t.kills⟩

/-- Modelled from the spec: `common.StreamId` is an enumerated stream
category identifier (its concrete integer values live outside the given
source slice). -/
abbrev StreamId := Nat

/-- Modelled from the spec: the maintenance-stream identifier. -/
def MAINT_STREAM : StreamId := (1 : Nat)

/-- Modelled from the spec: the initial-load-stream identifier. -/
def INIT_STREAM : StreamId := (2 : Nat)

/-- Modelled from the spec: the fixed topic name of the maintenance
stream. -/
def MAINT_TOPIC : String := "MAINT_TOPIC"

/-- Modelled from the spec: the fixed topic name of the initial-load
stream. -/
def INIT_TOPIC : String := "INIT_TOPIC"

/-- Modelled from the spec: the `TESTING` build flag (false in
production). -/
def TESTING : Bool := false

/-- `getTopicForStreamId`: switch on the stream id; the Go `topic`
variable keeps its zero value `""` for any other stream id. -/
def getTopicForStreamId (streamId : StreamId) : String :=
  if streamId = MAINT_STREAM then
    if !TESTING then MAINT_TOPIC else "testing " ++ MAINT_TOPIC
  else if streamId = INIT_STREAM then
    if !TESTING then INIT_TOPIC else "testing " ++ INIT_TOPIC
  else ""

/-- Index instance payload: opaque to the orchestrator beyond identity. -/
structure Instance where
  id : Nat
deriving DecidableEq, Repr

/-- `common.TsVbuuid`: the caller-side timestamp format (one slot per
partition; snapshots are start/end pairs). -/
structure CommonTsVbuuid where
  bucket : String
  seqnos : List Nat
  vbuuids : List Nat
  snapshots : List (Nat × Nat)
deriving DecidableEq, Repr

/-- `ProjectorAdmin.AddIndexToStream`: no-op when `buckets` or
`instances` is empty, otherwise the retrying round loop. -/
def AddIndexToStream (streamId : StreamId) (buckets : List String)
    (instances : List Instance) (requestTimestamps : List CommonTsVbuuid)
    (rounds : List RoundEnv) : RunTrace :=
  if buckets.length = 0 ∨ instances.length = 0 then ⟨.done none, [], 0, [], []⟩
  else addIndexRounds buckets rounds

/-- The round loop of `DeleteIndexFromStream`: on a worker error kill the
unreported workers, return the error unless its code is
`ERROR_STREAM_PROJECTOR_TIMEOUT`, else retry. -/
def deleteRounds : List RoundEnv → RunTrace
  | [] => ⟨.pending, [], 0, [], []⟩
  | env :: rest =>
    match env.nodeList with
    | .err e => ⟨.done (some e), [], 1, [], []⟩
    | .ok nodes =>
      match joinPlain env.results with
      | none => ⟨.done none, [], 1, nodes, []⟩
      | some (e, rem) =>
        if e.code ≠ .ERROR_STREAM_PROJECTOR_TIMEOUT then
          ⟨.done (some e), [], 1, nodes, rem.map fun r => r.server⟩
        else
          let t := deleteRounds rest
          ⟨t.result, [], t.topoCalls + 1, nodes ++ t.spawned,
           (rem.map fun r => r.server) ++ t.kills⟩

/-- `ProjectorAdmin.DeleteIndexFromStream`: no-op when `buckets` or
`instances` is empty, otherwise the retrying round loop. -/
def DeleteIndexFromStream (streamId : StreamId) (buckets : List String)
    (instances : List Nat) (rounds : List RoundEnv) : RunTrace :=
  if buckets.length = 0 ∨ instances.length = 0 then ⟨.done none, [], 0, [], []⟩
  else deleteRounds rounds

/-- The round loop of `RepairEndpointForStream`: retry policy identical
to `DeleteIndexFromStream`. -/
def repairRounds : List RoundEnv → RunTrace
  | [] => ⟨.pending, [], 0, [], []⟩
  | env :: rest =>
    match env.nodeList with
    | .err e => ⟨.done (some e), [], 1, [], []⟩
    | .ok nodes =>
      match joinPlain env.results with
      | none => ⟨.done none, [], 1, nodes, []⟩
      | some (e, rem) =>
        if e.code ≠ .ERROR_STREAM_PROJECTOR_TIMEOUT then
          ⟨.done (some e), [], 1, nodes, rem.map fun r => r.server⟩
        else
          let t := repairRounds rest
          ⟨t.result, [], t.topoCalls + 1, nodes ++ t.spawned,
           (rem.map fun r => r.server) ++ t.kills⟩

/-- `ProjectorAdmin.RepairEndpointForStream`: no-op when the
bucket-to-partitions map is empty, otherwise the retrying round loop. -/
def RepairEndpointForStream (streamId : StreamId)
    (bucketVbnosMap : List (String × List Nat)) (endpoint : String)
    (rounds : List RoundEnv) : RunTrace :=
  if bucketVbnosMap.length = 0 then ⟨.done none, [], 0, [], []⟩
  else repairRounds rounds

/-- The round loop of `RestartStreamIfNecessary`: an
`ERROR_STREAM_INCONSISTENT_VBMAP` failure of `GetNodeListForTimestamps`
retries the round, any other resolver failure is returned; worker errors
retry on the five restart-retryable codes and are returned otherwise; a
round with no worker error registers the active timestamps with the
monitor (no validation on this path). -/
def restartRounds : List RestartRoundEnv → RunTrace
  | [] => ⟨.pending, [], 0, [], []⟩
  | env :: rest =>
    match env.nodeList with
    | .err e =>
      if e.code = .ERROR_STREAM_INCONSISTENT_VBMAP then
        let t := restartRounds rest
        ⟨t.result, t.monitored, t.topoCalls + 1, t.spawned, t.kills⟩
      else ⟨.done (some e), [], 1, [], []⟩
    | .ok nodes =>
      match joinWorkers env.results [] with
      | .allDone ats => ⟨.done none, ats, 1, nodes.map Prod.fst, []⟩
      | .errorAt e _ rem =>
        if e.code ≠ .ERROR_STREAM_WRONG_VBUCKET ∧ e.code ≠ .ERROR_STREAM_INVALID_TIMESTAMP ∧
            e.code ≠ .ERROR_STREAM_FEEDER ∧ e.code ≠ .ERROR_STREAM_STREAM_END ∧
            e.code ≠ .ERROR_STREAM_PROJECTOR_TIMEOUT then
          ⟨.done (some e), [], 1, nodes.map Prod.fst, rem.map fun r => r.server⟩
        else
          let t := restartRounds rest
          ⟨t.result, t.monitored, t.topoCalls + 1, nodes.map Prod.fst ++ t.spawned,
           (rem.map fun r => r.server) ++ t.kills⟩

/-- `ProjectorAdmin.RestartStreamIfNecessary`: no-op when
`restartTimestamps` is empty, otherwise the retrying round loop. -/
def RestartStreamIfNecessary (streamId : StreamId)
    (restartTimestamps : List CommonTsVbuuid) (rounds : List RestartRoundEnv) : RunTrace :=
  if restartTimestamps.length = 0 then ⟨.done none, [], 0, [], []⟩
  else restartRounds rounds

/-- Does the character list `sub` occur contiguously inside `s`
(`strings.Contains`)? -/
def hasInfix (sub : List Char) : List Char → Bool
  | [] => sub.isEmpty
  | c :: rest => sub.isPrefixOf (c :: rest) || hasInfix sub rest

/-- `strings.Contains(s, sub)`. -/
def strContains (s sub : String) : Bool :=
  hasInfix sub.toList s.toList

/-- Modelled from the spec: the projector client's error string for
"topic already exists" (constant of the projector client package,
outside the given source slice; only distinctness of the strings
matters). -/
def ErrorTopicExist : String := "projector.topicExist"

/-- Modelled from the spec: the projector client's "inconsistent feed"
error string (fatal, non-recoverable). -/
def ErrorInconsistentFeed : String := "projector.inconsistentFeed"

/-- Modelled from the spec: the projector client's "not my vbucket"
error string (wrong partition owner). -/
def ErrorNotMyVbucket : String := "projector.notMyVbucket"

/-- Modelled from the spec: the projector client's "invalid vbucket
branch" error string (timestamp epoch diverged). -/
def ErrorInvalidVbucketBranch : String := "projector.invalidVbucketBranch"

/-- Modelled from the spec: the projector client's "invalid KV
addresses" error string. -/
def ErrorInvalidKVaddrs : String := "projector.invalidKVaddrs"

/-- Modelled from the spec: the projector client's "topic missing" error
string (special-cased to success on delete/repair paths). -/
def ErrorTopicMissing : String := "projector.topicMissing"

/-- Modelled from the spec: the projector client's "invalid bucket"
error string. -/
def ErrorInvalidBucket : String := "projector.invalidBucket"

/-- Modelled from the spec: the projector client's "feeder" error
string (upstream feed broke). -/
def ErrorFeeder : String := "projector.feeder"

/-- Modelled from the spec: the projector client's "stream end" error
string. -/
def ErrorStreamEnd : String := "projector.streamEnd"

/-- A `MutationTopicRequest`/`RestartVbuckets` response: the active and
rollback timestamp sets. -/
structure TopicResponse where
  activeTimestamps : List TsVbuuid
  rollbackTimestamps : List TsVbuuid
deriving DecidableEq, Repr

/-- `adminWorker.shouldRetryAddInstances`: classify the call error by
substring match, in source order; an unclassified error recomputes every
request timestamp against the response's rollback timestamps and retries
(`none` error). -/
def shouldRetryAddInstances (requestTs : List TsVbuuid) (response : TopicResponse)
    (errStr : String) : List TsVbuuid × Option Err :=
  if strContains errStr ErrorTopicExist then
    ([], some ⟨.ERROR_STREAM_REQUEST_ERROR⟩)
  else if strContains errStr ErrorInconsistentFeed then
    ([], some ⟨.ERROR_STREAM_REQUEST_ERROR⟩)
  else if strContains errStr ErrorNotMyVbucket then
    ([], some ⟨.ERROR_STREAM_WRONG_VBUCKET⟩)
  else if strContains errStr ErrorInvalidVbucketBranch then
    ([], some ⟨.ERROR_STREAM_INVALID_TIMESTAMP⟩)
  else if strContains errStr ErrorInvalidKVaddrs then
    ([], some ⟨.ERROR_STREAM_INVALID_KVADDRS⟩)
  else
    (requestTs.map fun ts => recomputeRequestTimestamp ts response.rollbackTimestamps, none)

/-- `adminWorker.shouldRetryRestartVbuckets`: the restart-path error
classification, in source order. -/
def shouldRetryRestartVbuckets (requestTs : List TsVbuuid) (response : TopicResponse)
    (errStr : String) : List TsVbuuid × Option Err :=
  if strContains errStr ErrorTopicMissing then
    ([], some ⟨.ERROR_STREAM_REQUEST_ERROR⟩)
  else if strContains errStr ErrorInvalidBucket then
    ([], some ⟨.ERROR_STREAM_REQUEST_ERROR⟩)
  else if strContains errStr ErrorFeeder then
    ([], some ⟨.ERROR_STREAM_FEEDER⟩)
  else if strContains errStr ErrorNotMyVbucket then
    ([], some ⟨.ERROR_STREAM_WRONG_VBUCKET⟩)
  else if strContains errStr ErrorInvalidVbucketBranch then
    ([], some ⟨.ERROR_STREAM_INVALID_TIMESTAMP⟩)
  else if strContains errStr ErrorStreamEnd then
    ([], some ⟨.ERROR_STREAM_STREAM_END⟩)
  else
    (requestTs.map fun ts => recomputeRequestTimestamp ts response.rollbackTimestamps, none)

/-- One scheduler step of a worker retry loop whose client call returns a
`TopicResponse`: either the kill signal is observed before the call, or
the call completes with the given response and error string (`none` =
success). -/
inductive AddEvent where
  | kill
  | call (response : TopicResponse) (err : Option String)
deriving DecidableEq, Repr

/-- Terminal state of an `addInstances`/`restartStream` worker:
silently killed, successful with the reported active timestamps, failed
with a classified error (the response's active timestamps are recorded
too), or `worker.err = ERROR_STREAM_PROJECTOR_TIMEOUT` after the
elapsed-time ceiling. -/
inductive AddTermination where
  | killed
  | ok (activeTs : List TsVbuuid)
  | fail (activeTs : List TsVbuuid) (e : Err)
  | timedOut
deriving DecidableEq, Repr

/-- The bounded retry loop of `adminWorker.addInstances` (after the
request timestamps for the node have been built and filtered), over the
events it observes before the elapsed-time ceiling; also returns the
topic of each `MutationTopicRequest` call issued. -/
def addInstancesLoop (topic : String) (timestamps : List TsVbuuid) :
    List AddEvent → AddTermination × List String
  | [] => (.timedOut, [])
  | .kill :: _ => (.killed, [])
  | .call resp none :: _ => (.ok resp.activeTimestamps, [topic])
  | .call resp (some errStr) :: rest =>
    match shouldRetryAddInstances timestamps resp errStr with
    | (_, some e) => (.fail resp.activeTimestamps e, [topic])
    | (newTs, none) =>
      let r := addInstancesLoop topic newTs rest
      (r.1, topic :: r.2)

/-- The bounded retry loop of `adminWorker.restartStream`, over the
events it observes; also returns the topic of each `RestartVbuckets`
call issued. -/
def restartStreamLoop (topic : String) (timestamps : List TsVbuuid) :
    List AddEvent → AddTermination × List String
  | [] => (.timedOut, [])
  | .kill :: _ => (.killed, [])
  | .call resp none :: _ => (.ok resp.activeTimestamps, [topic])
  | .call resp (some errStr) :: rest =>
    match shouldRetryRestartVbuckets timestamps resp errStr with
    | (_, some e) => (.fail resp.activeTimestamps e, [topic])
    | (newTs, none) =>
      let r := restartStreamLoop topic newTs rest
      (r.1, topic :: r.2)

/-- One scheduler step of a worker retry loop whose client call returns
only an error (`DelInstances` / `RepairEndpoints`). -/
inductive DelEvent where
  | kill
  | call (err : Option String)
deriving DecidableEq, Repr

/-- Terminal state of a `deleteInstances`/`repairEndpoint` worker. -/
inductive DelTermination where
  | killed
  | ok
  | timedOut
deriving DecidableEq, Repr

/-- The bounded retry loop of `adminWorker.deleteInstances`: a call error
containing `ErrorTopicMissing` terminates the worker with a `nil` error
(success); any other error retries until the elapsed-time ceiling. -/
def deleteInstancesLoop (topic : String) : List DelEvent → DelTermination × List String
  | [] => (.timedOut, [])
  | .kill :: _ => (.killed, [])
  | .call none :: _ => (.ok, [topic])
  | .call (some errStr) :: rest =>
    if strContains errStr ErrorTopicMissing then (.ok, [topic])
    else
      let r := deleteInstancesLoop topic rest
      (r.1, topic :: r.2)

/-- The bounded retry loop of `adminWorker.repairEndpoint`: same
"topic missing is success" treatment as `deleteInstances`. -/
def repairEndpointLoop (topic : String) : List DelEvent → DelTermination × List String
  | [] => (.timedOut, [])
  | .kill :: _ => (.killed, [])
  | .call none :: _ => (.ok, [topic])
  | .call (some errStr) :: rest =>
    if strContains errStr ErrorTopicMissing then (.ok, [topic])
    else
      let r := repairEndpointLoop topic rest
      (r.1, topic :: r.2)

theorem getD_map_of_lt {α β : Type} (f : α → β) (l : List α) (i : Nat) (d : β) (d0 : α)
    (h : i < l.length) : (l.map f).getD i d = f (l.getD i d0) := by
  have h2 : i < (l.map f).length := by simpa using h
  rw [List.getD_eq_getElem?_getD, List.getD_eq_getElem?_getD,
    List.getElem?_eq_getElem h2, List.getElem?_eq_getElem h]
  simp

theorem entryOf_vbno (rt : Option TsVbuuid) (rq : TsVbuuid) (vbno i : Nat) :
    (entryOf rt rq vbno i).vbno = vbno % 65536 := by
  unfold entryOf
  split <;> rfl

theorem recompute_char (rq : TsVbuuid) (rbs : List TsVbuuid) :
    (recomputeRequestTimestamp rq rbs).pool = DEFAULT_POOL_NAME ∧
    (recomputeRequestTimestamp rq rbs).bucket = rq.bucket ∧
    (recomputeRequestTimestamp rq rbs).vbnos
      = (entriesFor (findTimestampForBucket rbs rq.bucket) rq rq.vbnos 0).map (fun e => e.vbno) ∧
    (recomputeRequestTimestamp rq rbs).seqnos
      = (entriesFor (findTimestampForBucket rbs rq.bucket) rq rq.vbnos 0).map (fun e => e.seqno) ∧
    (recomputeRequestTimestamp rq rbs).vbuuids
      = (entriesFor (findTimestampForBucket rbs rq.bucket) rq rq.vbnos 0).map (fun e => e.vbuuid) ∧
    (recomputeRequestTimestamp rq rbs).snapshots
      = (entriesFor (findTimestampForBucket rbs rq.bucket) rq rq.vbnos 0).map
          (fun e => (⟨e.snapStart, e.snapEnd⟩ : Snapshot)) := by
  unfold recomputeRequestTimestamp
  rw [recomputeAux_eq_appendEntries]
  have h := appendEntries_fields
    (entriesFor (findTimestampForBucket rbs rq.bucket) rq rq.vbnos 0)
    (NewTsVbuuid DEFAULT_POOL_NAME rq.bucket rq.vbnos.length)
  simpa [NewTsVbuuid] using h

theorem entriesFor_map_vbno (rt : Option TsVbuuid) (rq : TsVbuuid) :
    ∀ (l : List Nat) (i : Nat),
      (entriesFor rt rq l i).map (fun e => e.vbno) = l.map (fun v => v % 65536) := by
  intro l
  induction l with
  | nil => intro i; rfl
  | cons vbno rest ih => intro i; simp [entriesFor, entryOf_vbno, ih]

/-- C9 (amended): `recomputeRequestTimestamp` always returns a timestamp
(never nil), for the default pool and the same bucket, whose partition
list is the request's partition list taken through the `uint16` cast
(`% 2^16`) — in particular same order and count, and identical numbers
whenever every partition number is below 2^16. -/
theorem c9_recompute_structure_amended (rq : TsVbuuid) (rbs : List TsVbuuid) :
    (recomputeRequestTimestamp rq rbs).pool = DEFAULT_POOL_NAME ∧
    (recomputeRequestTimestamp rq rbs).bucket = rq.bucket ∧
    (recomputeRequestTimestamp rq rbs).vbnos = rq.vbnos.map (fun v => v % 65536) ∧
    (recomputeRequestTimestamp rq rbs).vbnos.length = rq.vbnos.length := by
  obtain ⟨h1, h2, h3, _⟩ := recompute_char rq rbs
  refine ⟨h1, h2, ?_, ?_⟩ <;> rw [h3, entriesFor_map_vbno] <;> simp

/-- C9 counterexample: for a request timestamp listing partition number
65536 (a type-valid `uint32` value) and no rollback timestamps, the
recomputed timestamp's partition list is `[0]`, not the request's
`[65536]`: the claim that the result contains exactly the request's
partition numbers fails. -/
theorem c9_counterexample :
    (recomputeRequestTimestamp ⟨"default", "b", [65536], [1], [2], [⟨3, 4⟩]⟩ []).vbnos = [0] ∧
    (recomputeRequestTimestamp ⟨"default", "b", [65536], [1], [2], [⟨3, 4⟩]⟩ []).vbnos
      ≠ (⟨"default", "b", [65536], [1], [2], [⟨3, 4⟩]⟩ : TsVbuuid).vbnos := by
  constructor
  · rfl
  · decide

/-- C2: for every request timestamp and rollback-timestamp list, the
entry (seqno, vbuuid, snapshot start/end) of the recomputed timestamp at
each position `i` is the rollback entry of the matching-bucket rollback
timestamp at the offset of the request's partition number `vbno` when
that timestamp contains `vbno`, and the request's original entry at `i`
otherwise. -/
theorem c2_rollback_reconciliation (rq : TsVbuuid) (rbs : List TsVbuuid) (i : Nat)
    (hi : i < rq.vbnos.length) :
    tsEntry (recomputeRequestTimestamp rq rbs) i =
      (match findTimestampOffsetForVb (findTimestampForBucket rbs rq.bucket) (rq.vbnos.getD i 0),
             findTimestampForBucket rbs rq.bucket with
       | Int.ofNat off, some rb => tsEntry rb off
       | _, _ => tsEntry rq i) := by
  obtain ⟨_, _, _, hseq, hvbu, hsnap⟩ := recompute_char rq rbs
  have hlen : (entriesFor (findTimestampForBucket rbs rq.bucket) rq rq.vbnos 0).length
      = rq.vbnos.length := entriesFor_length _ _ _ _
  have hi2 : i < (entriesFor (findTimestampForBucket rbs rq.bucket) rq rq.vbnos 0).length := by
    rw [hlen]; exact hi
  have hget : (entriesFor (findTimestampForBucket rbs rq.bucket) rq rq.vbnos 0).getD i
      ⟨0, 0, 0, 0, 0⟩ = entryOf (findTimestampForBucket rbs rq.bucket) rq (rq.vbnos.getD i 0) i := by
    have h := entriesFor_getD (findTimestampForBucket rbs rq.bucket) rq rq.vbnos 0 i hi
    simpa using h
  unfold tsEntry
  rw [hseq, hvbu, hsnap,
    getD_map_of_lt _ _ _ _ ⟨0, 0, 0, 0, 0⟩ hi2,
    getD_map_of_lt _ _ _ _ ⟨0, 0, 0, 0, 0⟩ hi2,
    getD_map_of_lt _ _ _ _ ⟨0, 0, 0, 0, 0⟩ hi2, hget]
  unfold entryOf
  cases hrt : findTimestampForBucket rbs rq.bucket with
  | none => simp [findTimestampOffsetForVb, tsEntry]
  | some rb =>
    cases hoff : findTimestampOffsetForVb (some rb) (rq.vbnos.getD i 0) with
    | ofNat off => simp [hoff, tsEntry]
    | negSucc n => simp [hoff, tsEntry]

/-- C2 witness: a concrete request with partition 7 at seqno 10 and a
rollback timestamp for the same bucket carrying seqno 100 for partition
7: the recomputed entry is the rollback entry. -/
theorem c2_rollback_reconciliation_witness :
    0 < (⟨"default", "b", [7], [10], [20], [⟨1, 2⟩]⟩ : TsVbuuid).vbnos.length ∧
    tsEntry (recomputeRequestTimestamp ⟨"default", "b", [7], [10], [20], [⟨1, 2⟩]⟩
      [⟨"default", "b", [7], [100], [200], [⟨5, 6⟩]⟩]) 0 = (100, 200, 5, 6) :=
  ⟨by decide,
    (c2_rollback_reconciliation ⟨"default", "b", [7], [10], [20], [⟨1, 2⟩]⟩
      [⟨"default", "b", [7], [100], [200], [⟨5, 6⟩]⟩] 0 (by decide)).trans (by decide)⟩

theorem scanVbnos_char (vb : Nat) : ∀ (l : List Nat) (found : Bool),
    scanVbnos vb l found =
      if l.count vb + (if found then 1 else 0) ≥ 2 then none
      else some (decide (l.count vb + (if found then 1 else 0) = 1)) := by
  intro l
  induction l with
  | nil =>
    intro found
    cases found <;> simp [scanVbnos]
  | cons v rest ih =>
    intro found
    by_cases hv : vb = v
    · subst hv
      cases found
      · rw [show scanVbnos vb (vb :: rest) false = scanVbnos vb rest true from by
          simp [scanVbnos], ih]
        simp [List.count_cons]
      · rw [show scanVbnos vb (vb :: rest) true = none from by simp [scanVbnos]]
        rw [if_pos (by simp [List.count_cons])]
    · rw [show scanVbnos vb (v :: rest) found = scanVbnos vb rest found from by
        simp [scanVbnos, hv], ih]
      rw [List.count_cons_of_ne hv rest]

theorem activeVbCount_cons (ts : TsVbuuid) (rest : List TsVbuuid) (bucket : String) (vb : Nat) :
    activeVbCount (ts :: rest) bucket vb =
      (if ts.bucket = bucket then ts.vbnos.count vb else 0) + activeVbCount rest bucket vb := by
  by_cases h : ts.bucket = bucket <;> simp [activeVbCount, List.filter, h]

theorem scanTimestamps_char (bucket : String) (vb : Nat) :
    ∀ (ats : List TsVbuuid) (found : Bool),
      scanTimestamps bucket vb ats found =
        if activeVbCount ats bucket vb + (if found then 1 else 0) ≥ 2 then none
        else some (decide (activeVbCount ats bucket vb + (if found then 1 else 0) = 1)) := by
  intro ats
  induction ats with
  | nil =>
    intro found
    cases found <;> simp [scanTimestamps, activeVbCount]
  | cons ts rest ih =>
    intro found
    rw [activeVbCount_cons]
    by_cases hb : ts.bucket = bucket
    · rw [if_pos hb]
      have hstep : scanTimestamps bucket vb (ts :: rest) found =
          match scanVbnos vb ts.vbnos found with
          | none => none
          | some found2 => scanTimestamps bucket vb rest found2 := by
        simp [scanTimestamps, hb]
      rw [hstep, scanVbnos_char]
      by_cases hge : ts.vbnos.count vb + (if found then 1 else 0) ≥ 2
      · rw [if_pos hge]
        rw [if_pos (by omega)]
      · rw [if_neg hge]
        have hc : ts.vbnos.count vb + (if found then 1 else 0) = 0 ∨
            ts.vbnos.count vb + (if found then 1 else 0) = 1 := by omega
        rcases hc with hc | hc
        · rw [show decide (ts.vbnos.count vb + (if found then 1 else 0) = 1) = false from by
            simp [hc]]
          show scanTimestamps bucket vb rest false = _
          rw [ih false]
          have hC : List.count vb ts.vbnos = 0 := by omega
          have hF : (if found = true then 1 else 0) = 0 := by omega
          rw [hC, hF]
          simp
        · rw [show decide (ts.vbnos.count vb + (if found then 1 else 0) = 1) = true from by
            simp [hc]]
          show scanTimestamps bucket vb rest true = _
          rw [ih true]
          have h1 : List.count vb ts.vbnos + activeVbCount rest bucket vb +
              (if found = true then 1 else 0) = activeVbCount rest bucket vb + 1 := by omega
          rw [h1]
          simp
    · rw [if_neg hb]
      have hstep : scanTimestamps bucket vb (ts :: rest) found =
          scanTimestamps bucket vb rest found := by
        simp [scanTimestamps, hb]
      rw [hstep, ih found]
      simp

theorem checkActiveVb_char (ats : List TsVbuuid) (bucket : String) (vb : Nat) :
    checkActiveVb ats bucket vb = decide (activeVbCount ats bucket vb = 1) := by
  unfold checkActiveVb
  rw [scanTimestamps_char]
  have hz : activeVbCount ats bucket vb + (if false then 1 else 0)
      = activeVbCount ats bucket vb := rfl
  rw [hz]
  by_cases h : activeVbCount ats bucket vb ≥ 2
  · rw [if_pos h]
    have h2 : ¬ activeVbCount ats bucket vb = 1 := by omega
    simp [h2]
  · rw [if_neg h]

theorem validateActiveVb_iff (buckets : List String) (ats : List TsVbuuid) :
    validateActiveVb buckets ats = true ↔
      ∀ bucket ∈ buckets, ∀ vb < NUM_VB, activeVbCount ats bucket vb = 1 := by
  unfold validateActiveVb
  simp [List.all_eq_true, checkActiveVb_char, List.mem_range]

theorem joinWorkers_allDone_of_noErr :
    ∀ (results : List WorkerResult) (acc : List TsVbuuid),
      (∀ r ∈ results, r.err = none) →
      joinWorkers results acc = .allDone (acc ++ (results.map fun r => r.activeTimestamps).flatten) := by
  intro results
  induction results with
  | nil => intro acc h; simp [joinWorkers]
  | cons r rest ih =>
    intro acc h
    have hr : r.err = none := h r (by simp)
    have hrest : ∀ x ∈ rest, x.err = none := fun x hx => h x (by simp [hx])
    rw [show joinWorkers (r :: rest) acc = joinWorkers rest (acc ++ r.activeTimestamps) from by
      simp [joinWorkers, hr]]
    rw [ih _ hrest]
    simp

theorem joinWorkers_errorAt_decomp :
    ∀ (results : List WorkerResult) (acc : List TsVbuuid) (e : Err) (ats : List TsVbuuid)
      (rem : List WorkerResult),
      joinWorkers results acc = .errorAt e ats rem →
      ∃ pre r, results = pre ++ r :: rem ∧ r.err = some e ∧ ∀ x ∈ pre, x.err = none := by
  intro results
  induction results with
  | nil => intro acc e ats rem h; simp [joinWorkers] at h
  | cons r rest ih =>
    intro acc e ats rem h
    cases hr : r.err with
    | none =>
      rw [show joinWorkers (r :: rest) acc = joinWorkers rest (acc ++ r.activeTimestamps) from by
        simp [joinWorkers, hr]] at h
      obtain ⟨pre, r2, hsplit, herr, hpre⟩ := ih _ _ _ _ h
      exact ⟨r :: pre, r2, by simp [hsplit], herr, by
        intro x hx
        rcases List.mem_cons.mp hx with hx | hx
        · rw [hx]; exact hr
        · exact hpre x hx⟩
    | some e2 =>
      rw [show joinWorkers (r :: rest) acc
          = .errorAt e2 (acc ++ r.activeTimestamps) rest from by simp [joinWorkers, hr]] at h
      cases h
      exact ⟨[], r, by simp, hr, by intro x hx; simp at hx⟩

theorem addIndexRounds_monitor_inv (buckets : List String) : ∀ rounds : List RoundEnv,
    ((addIndexRounds buckets rounds).result = .done none →
      validateActiveVb buckets (addIndexRounds buckets rounds).monitored = true) ∧
    ((addIndexRounds buckets rounds).result ≠ .done none →
      (addIndexRounds buckets rounds).monitored = []) := by
  intro rounds
  induction rounds with
  | nil => simp [addIndexRounds]
  | cons env rest ih =>
    cases hnl : env.nodeList with
    | err e => simp [addIndexRounds, hnl]
    | ok nodes =>
      cases hj : joinWorkers env.results [] with
      | allDone ats =>
        by_cases hv : validateActiveVb buckets ats
        · simp [addIndexRounds, hnl, hj, hv]
        · simpa [addIndexRounds, hnl, hj, hv] using ih
      | errorAt e ats2 rem =>
        by_cases hcode : e.code ≠ .ERROR_STREAM_WRONG_VBUCKET ∧
            e.code ≠ .ERROR_STREAM_INVALID_TIMESTAMP ∧
            e.code ≠ .ERROR_STREAM_INVALID_KVADDRS ∧
            e.code ≠ .ERROR_STREAM_PROJECTOR_TIMEOUT
        · simp [addIndexRounds, hnl, hj, hcode]
        · simpa [addIndexRounds, hnl, hj, hcode] using ih

/-- C1: `validateActiveVb buckets ats` is true exactly when every
`(bucket, vb)` pair with `vb < NUM_VB` is covered by exactly one
active-timestamp entry; in an `AddIndexToStream` round whose workers all
report without error, failed validation retries the round (the round
never returns success) while successful validation returns `nil` with
the joined timestamps handed to the monitor; and the monitor only ever
receives timestamps of a round whose validation returned true. -/
theorem c1_single_owner_validation :
    (∀ (buckets : List String) (ats : List TsVbuuid),
      validateActiveVb buckets ats = true ↔
        ∀ bucket ∈ buckets, ∀ vb < NUM_VB, activeVbCount ats bucket vb = 1)
    ∧ (∀ (buckets : List String) (env : RoundEnv) (rest : List RoundEnv)
        (nodes : List String) (ats : List TsVbuuid),
        env.nodeList = .ok nodes → joinWorkers env.results [] = .allDone ats →
        validateActiveVb buckets ats = false →
        addIndexRounds buckets (env :: rest) =
          ⟨(addIndexRounds buckets rest).result, (addIndexRounds buckets rest).monitored,
           (addIndexRounds buckets rest).topoCalls + 1,
           nodes ++ (addIndexRounds buckets rest).spawned, (addIndexRounds buckets rest).kills⟩)
    ∧ (∀ (buckets : List String) (env : RoundEnv) (rest : List RoundEnv)
        (nodes : List String) (ats : List TsVbuuid),
        env.nodeList = .ok nodes → joinWorkers env.results [] = .allDone ats →
        validateActiveVb buckets ats = true →
        addIndexRounds buckets (env :: rest) = ⟨.done none, ats, 1, nodes, []⟩)
    ∧ (∀ (buckets : List String) (rounds : List RoundEnv),
        ((addIndexRounds buckets rounds).result = .done none →
          validateActiveVb buckets (addIndexRounds buckets rounds).monitored = true)
        ∧ ((addIndexRounds buckets rounds).result ≠ .done none →
          (addIndexRounds buckets rounds).monitored = [])) := by
  refine ⟨validateActiveVb_iff, ?_, ?_, addIndexRounds_monitor_inv⟩
  · intro buckets env rest nodes ats h1 h2 h3
    simp [addIndexRounds, h1, h2, h3]
  · intro buckets env rest nodes ats h1 h2 h3
    simp [addIndexRounds, h1, h2, h3]

/-- C1 witness: with no requested bucket every partition requirement is
vacuous, so a round whose (zero) workers all reported validates and
returns `nil` with its (empty) timestamps monitored. -/
theorem c1_single_owner_validation_witness :
    addIndexRounds [] [⟨.ok [], []⟩] = ⟨.done none, [], 1, [], []⟩ :=
  c1_single_owner_validation.2.2.1 [] ⟨.ok [], []⟩ [] [] [] rfl rfl rfl

theorem joinPlain_none_of_noErr :
    ∀ (results : List WorkerResult), (∀ r ∈ results, r.err = none) →
      joinPlain results = none := by
  intro results
  induction results with
  | nil => intro h; rfl
  | cons r rest ih =>
    intro h
    have hr : r.err = none := h r (by simp)
    have hrest : ∀ x ∈ rest, x.err = none := fun x hx => h x (by simp [hx])
    simp [joinPlain, hr, ih hrest]

/-- C4 (amended): the orchestrator joins every spawned worker only in
rounds where no worker reports an error; on the first reported worker
error it stops receiving from the results channel, sends the kill signal
to exactly the workers that have not yet reported, and returns the
error (for an unclassified code) without waiting for them. -/
theorem c4_join_before_return_amended :
    (∀ results : List WorkerResult,
      (∀ r ∈ results, r.err = none) →
      joinWorkers results [] = .allDone (results.map fun r => r.activeTimestamps).flatten)
    ∧ (∀ (results : List WorkerResult) (e : Err) (ats : List TsVbuuid)
        (rem : List WorkerResult),
        joinWorkers results [] = .errorAt e ats rem →
        ∃ pre r, results = pre ++ r :: rem ∧ r.err = some e ∧ ∀ x ∈ pre, x.err = none)
    ∧ (∀ (buckets : List String) (env : RoundEnv) (rest : List RoundEnv)
        (nodes : List String) (e : Err) (ats : List TsVbuuid) (rem : List WorkerResult),
        env.nodeList = .ok nodes → joinWorkers env.results [] = .errorAt e ats rem →
        e.code ≠ .ERROR_STREAM_WRONG_VBUCKET → e.code ≠ .ERROR_STREAM_INVALID_TIMESTAMP →
        e.code ≠ .ERROR_STREAM_INVALID_KVADDRS → e.code ≠ .ERROR_STREAM_PROJECTOR_TIMEOUT →
        addIndexRounds buckets (env :: rest)
          = ⟨.done (some e), [], 1, nodes, rem.map fun r => r.server⟩) := by
  refine ⟨?_, fun results e ats rem h => joinWorkers_errorAt_decomp results [] e ats rem h, ?_⟩
  · intro results h
    simpa using joinWorkers_allDone_of_noErr results [] h
  · intro buckets env rest nodes e ats rem h1 h2 h3 h4 h5 h6
    simp [addIndexRounds, h1, h2, h3, h4, h5, h6]

/-- C4 witness: a concrete two-worker round whose first received result
carries an unclassified error: the round returns that error with the
second worker killed, not joined. -/
theorem c4_join_before_return_amended_witness :
    addIndexRounds ["b"]
      [⟨.ok ["n1", "n2"],
        [⟨"n1", [], some ⟨.ERROR_STREAM_REQUEST_ERROR⟩⟩, ⟨"n2", [], none⟩]⟩]
      = ⟨.done (some ⟨.ERROR_STREAM_REQUEST_ERROR⟩), [], 1, ["n1", "n2"], ["n2"]⟩ :=
  c4_join_before_return_amended.2.2 ["b"]
    ⟨.ok ["n1", "n2"], [⟨"n1", [], some ⟨.ERROR_STREAM_REQUEST_ERROR⟩⟩, ⟨"n2", [], none⟩]⟩
    [] ["n1", "n2"] ⟨.ERROR_STREAM_REQUEST_ERROR⟩ [] [⟨"n2", [], none⟩]
    rfl rfl (by decide) (by decide) (by decide) (by decide)

/-- C4 counterexample: in the round above the fan-in loop stops at the
first worker error with worker `"n2"` still unreported (`remaining`
nonempty), and the round returns the error to the caller anyway — so the
orchestrator does not receive a result from every spawned worker before
returning. -/
theorem c4_counterexample :
    joinWorkers [⟨"n1", [], some ⟨.ERROR_STREAM_REQUEST_ERROR⟩⟩, ⟨"n2", [], none⟩] []
      = .errorAt ⟨.ERROR_STREAM_REQUEST_ERROR⟩ [] [⟨"n2", [], none⟩] ∧
    (addIndexRounds ["b"]
      [⟨.ok ["n1", "n2"],
        [⟨"n1", [], some ⟨.ERROR_STREAM_REQUEST_ERROR⟩⟩, ⟨"n2", [], none⟩]⟩]).result
      = .done (some ⟨.ERROR_STREAM_REQUEST_ERROR⟩) ∧
    [(⟨"n2", [], none⟩ : WorkerResult)] ≠ [] := by
  refine ⟨rfl, rfl, by decide⟩

/-- C5: in a `DeleteIndexFromStream` round whose fan-in stops at a worker
error, a new round is started exactly when the error code is
`ERROR_STREAM_PROJECTOR_TIMEOUT`; for any other code the remaining
workers are killed and the error is returned immediately with no further
topology call or round. -/
theorem c5_delete_retry_policy :
    ∀ (env : RoundEnv) (rest : List RoundEnv) (nodes : List String) (e : Err)
      (rem : List WorkerResult),
      env.nodeList = .ok nodes → joinPlain env.results = some (e, rem) →
      (e.code = .ERROR_STREAM_PROJECTOR_TIMEOUT →
        deleteRounds (env :: rest)
          = ⟨(deleteRounds rest).result, [], (deleteRounds rest).topoCalls + 1,
             nodes ++ (deleteRounds rest).spawned,
             (rem.map fun r => r.server) ++ (deleteRounds rest).kills⟩)
      ∧ (e.code ≠ .ERROR_STREAM_PROJECTOR_TIMEOUT →
        deleteRounds (env :: rest)
          = ⟨.done (some e), [], 1, nodes, rem.map fun r => r.server⟩) := by
  intro env rest nodes e rem h1 h2
  constructor
  · intro hc
    simp [deleteRounds, h1, h2, hc]
  · intro hc
    simp [deleteRounds, h1, h2, hc]

/-- C5 witness: a worker error with the unclassified code
`ERROR_STREAM_REQUEST_ERROR` aborts the delete immediately, killing the
unreported worker. -/
theorem c5_delete_retry_policy_witness :
    deleteRounds
      [⟨.ok ["n"], [⟨"n", [], some ⟨.ERROR_STREAM_REQUEST_ERROR⟩⟩, ⟨"m", [], none⟩]⟩]
      = ⟨.done (some ⟨.ERROR_STREAM_REQUEST_ERROR⟩), [], 1, ["n"], ["m"]⟩ :=
  (c5_delete_retry_policy
    ⟨.ok ["n"], [⟨"n", [], some ⟨.ERROR_STREAM_REQUEST_ERROR⟩⟩, ⟨"m", [], none⟩]⟩
    [] ["n"] ⟨.ERROR_STREAM_REQUEST_ERROR⟩ [⟨"m", [], none⟩] rfl rfl).2 (by decide)

/-- C6: a `deleteInstances` or `repairEndpoint` worker whose client call
fails with an error containing the topic-missing string terminates at
once with a `nil` error (success), and a delete/repair round whose
workers all report `nil` errors returns success. -/
theorem c6_topic_missing_idempotent :
    (∀ (topic errStr : String) (rest : List DelEvent),
      strContains errStr ErrorTopicMissing = true →
      deleteInstancesLoop topic (.call (some errStr) :: rest) = (.ok, [topic]))
    ∧ (∀ (topic errStr : String) (rest : List DelEvent),
      strContains errStr ErrorTopicMissing = true →
      repairEndpointLoop topic (.call (some errStr) :: rest) = (.ok, [topic]))
    ∧ (∀ (env : RoundEnv) (rest : List RoundEnv) (nodes : List String),
      env.nodeList = .ok nodes → (∀ r ∈ env.results, r.err = none) →
      deleteRounds (env :: rest) = ⟨.done none, [], 1, nodes, []⟩)
    ∧ (∀ (env : RoundEnv) (rest : List RoundEnv) (nodes : List String),
      env.nodeList = .ok nodes → (∀ r ∈ env.results, r.err = none) →
      repairRounds (env :: rest) = ⟨.done none, [], 1, nodes, []⟩) := by
  refine ⟨?_, ?_, ?_, ?_⟩
  · intro topic errStr rest h
    simp [deleteInstancesLoop, h]
  · intro topic errStr rest h
    simp [repairEndpointLoop, h]
  · intro env rest nodes h1 h2
    simp [deleteRounds, h1, joinPlain_none_of_noErr env.results h2]
  · intro env rest nodes h1 h2
    simp [repairRounds, h1, joinPlain_none_of_noErr env.results h2]

/-- C6 witness: a delete worker whose single call fails with exactly the
topic-missing error ends successfully, and a one-node delete round whose
worker reported no error returns `nil`. -/
theorem c6_topic_missing_idempotent_witness :
    deleteInstancesLoop "t" [.call (some ErrorTopicMissing)] = (.ok, ["t"]) ∧
    deleteRounds [⟨.ok ["n"], [⟨"n", [], none⟩]⟩] = ⟨.done none, [], 1, ["n"], []⟩ :=
  ⟨c6_topic_missing_idempotent.1 "t" ErrorTopicMissing [] (by decide),
   c6_topic_missing_idempotent.2.2.1 ⟨.ok ["n"], [⟨"n", [], none⟩]⟩ [] ["n"] rfl
     (by intro r hr; simp at hr; rw [hr])⟩

theorem joinWorkers_errorAt_mem (results : List WorkerResult) (e : Err) (ats : List TsVbuuid)
    (rem : List WorkerResult) (h : joinWorkers results [] = .errorAt e ats rem) :
    ∃ r ∈ results, r.err = some e := by
  obtain ⟨pre, r, hsplit, herr, _⟩ := joinWorkers_errorAt_decomp results [] e ats rem h
  exact ⟨r, by simp [hsplit], herr⟩

/-- C7: when `GetNodeListForTimestamps` fails with
`ERROR_STREAM_INCONSISTENT_VBMAP`, `RestartStreamIfNecessary` retries the
whole round without spawning workers and without surfacing the error
(the run's outcome is that of the remaining rounds); any other resolver
failure is returned immediately with no workers spawned; and a run whose
workers never fail with that code never returns it to the caller. -/
theorem c7_restart_topology_retry :
    (∀ (env : RestartRoundEnv) (rest : List RestartRoundEnv) (e : Err),
      env.nodeList = .err e → e.code = .ERROR_STREAM_INCONSISTENT_VBMAP →
      restartRounds (env :: rest)
        = ⟨(restartRounds rest).result, (restartRounds rest).monitored,
           (restartRounds rest).topoCalls + 1, (restartRounds rest).spawned,
           (restartRounds rest).kills⟩)
    ∧ (∀ (env : RestartRoundEnv) (rest : List RestartRoundEnv) (e : Err),
      env.nodeList = .err e → e.code ≠ .ERROR_STREAM_INCONSISTENT_VBMAP →
      restartRounds (env :: rest) = ⟨.done (some e), [], 1, [], []⟩)
    ∧ (∀ rounds : List RestartRoundEnv,
      (∀ env ∈ rounds, ∀ r ∈ env.results, ∀ e2, r.err = some e2 →
        e2.code ≠ .ERROR_STREAM_INCONSISTENT_VBMAP) →
      ∀ e, (restartRounds rounds).result = .done (some e) →
        e.code ≠ .ERROR_STREAM_INCONSISTENT_VBMAP) := by
  refine ⟨?_, ?_, ?_⟩
  · intro env rest e h1 h2
    simp [restartRounds, h1, h2]
  · intro env rest e h1 h2
    simp [restartRounds, h1, h2]
  · intro rounds
    induction rounds with
    | nil => intro h e hres; simp [restartRounds] at hres
    | cons env rest ih =>
      intro h e hres
      have hrest : ∀ env2 ∈ rest, ∀ r ∈ env2.results, ∀ e2, r.err = some e2 →
          e2.code ≠ .ERROR_STREAM_INCONSISTENT_VBMAP :=
        fun env2 h2 => h env2 (by simp [h2])
      cases hnl : env.nodeList with
      | err e0 =>
        by_cases hc : e0.code = .ERROR_STREAM_INCONSISTENT_VBMAP
        · rw [show restartRounds (env :: rest)
              = ⟨(restartRounds rest).result, (restartRounds rest).monitored,
                 (restartRounds rest).topoCalls + 1, (restartRounds rest).spawned,
                 (restartRounds rest).kills⟩ from by simp [restartRounds, hnl, hc]] at hres
          exact ih hrest e hres
        · rw [show restartRounds (env :: rest) = ⟨.done (some e0), [], 1, [], []⟩ from by
            simp [restartRounds, hnl, hc]] at hres
          simp at hres
          rw [hres] at hc
          exact hc
      | ok nodes =>
        cases hj : joinWorkers env.results [] with
        | allDone ats =>
          rw [show restartRounds (env :: rest)
              = ⟨.done none, ats, 1, nodes.map Prod.fst, []⟩ from by
            simp [restartRounds, hnl, hj]] at hres
          simp at hres
        | errorAt e0 ats0 rem =>
          by_cases hcode : e0.code ≠ .ERROR_STREAM_WRONG_VBUCKET ∧
              e0.code ≠ .ERROR_STREAM_INVALID_TIMESTAMP ∧
              e0.code ≠ .ERROR_STREAM_FEEDER ∧ e0.code ≠ .ERROR_STREAM_STREAM_END ∧
              e0.code ≠ .ERROR_STREAM_PROJECTOR_TIMEOUT
          · rw [show restartRounds (env :: rest)
                = ⟨.done (some e0), [], 1, nodes.map Prod.fst, rem.map fun r => r.server⟩ from by
              simp [restartRounds, hnl, hj, hcode]] at hres
            simp at hres
            obtain ⟨r, hr, herr⟩ := joinWorkers_errorAt_mem env.results e0 ats0 rem hj
            rw [← hres]
            exact h env (by simp) r hr e0 herr
          · rw [show restartRounds (env :: rest)
                = ⟨(restartRounds rest).result, (restartRounds rest).monitored,
                   (restartRounds rest).topoCalls + 1,
                   nodes.map Prod.fst ++ (restartRounds rest).spawned,
                   (rem.map fun r => r.server) ++ (restartRounds rest).kills⟩ from by
              simp [restartRounds, hnl, hj, hcode]] at hres
            exact ih hrest e hres

/-- C7 witness: a resolver failure with a code other than
`ERROR_STREAM_INCONSISTENT_VBMAP` is returned immediately, with no
workers spawned. -/
theorem c7_restart_topology_retry_witness :
    restartRounds [⟨.err ⟨.ERROR_STREAM_REQUEST_ERROR⟩, []⟩]
      = ⟨.done (some ⟨.ERROR_STREAM_REQUEST_ERROR⟩), [], 1, [], []⟩ :=
  c7_restart_topology_retry.2.1 ⟨.err ⟨.ERROR_STREAM_REQUEST_ERROR⟩, []⟩ []
    ⟨.ERROR_STREAM_REQUEST_ERROR⟩ rfl (by decide)

/-- C8: `AddIndexToStream` with an empty bucket list or an empty instance
list returns `nil` without calling the topology resolver, spawning a
worker, killing anything or monitoring anything. -/
theorem c8_noop_on_empty :
    (∀ (streamId : StreamId) (instances : List Instance)
      (requestTimestamps : List CommonTsVbuuid) (rounds : List RoundEnv),
      AddIndexToStream streamId [] instances requestTimestamps rounds
        = ⟨.done none, [], 0, [], []⟩)
    ∧ (∀ (streamId : StreamId) (buckets : List String)
      (requestTimestamps : List CommonTsVbuuid) (rounds : List RoundEnv),
      AddIndexToStream streamId buckets [] requestTimestamps rounds
        = ⟨.done none, [], 0, [], []⟩) := by
  constructor
  · intro streamId instances requestTimestamps rounds
    simp [AddIndexToStream]
  · intro streamId buckets requestTimestamps rounds
    simp [AddIndexToStream]

theorem addInstancesLoop_calls (topic : String) :
    ∀ (events : List AddEvent) (ts : List TsVbuuid),
      ∀ t ∈ (addInstancesLoop topic ts events).2, t = topic := by
  intro events
  induction events with
  | nil => intro ts t ht; simp [addInstancesLoop] at ht
  | cons ev rest ih =>
    intro ts t ht
    cases ev with
    | kill => simp [addInstancesLoop] at ht
    | call resp err =>
      cases err with
      | none =>
        simp [addInstancesLoop] at ht
        exact ht
      | some errStr =>
        rcases hsc : shouldRetryAddInstances ts resp errStr with ⟨newTs, e2⟩
        cases e2 with
        | some e =>
          simp [addInstancesLoop, hsc] at ht
          exact ht
        | none =>
          simp [addInstancesLoop, hsc] at ht
          rcases ht with ht | ht
          · exact ht
          · exact ih newTs t ht

theorem restartStreamLoop_calls (topic : String) :
    ∀ (events : List AddEvent) (ts : List TsVbuuid),
      ∀ t ∈ (restartStreamLoop topic ts events).2, t = topic := by
  intro events
  induction events with
  | nil => intro ts t ht; simp [restartStreamLoop] at ht
  | cons ev rest ih =>
    intro ts t ht
    cases ev with
    | kill => simp [restartStreamLoop] at ht
    | call resp err =>
      cases err with
      | none =>
        simp [restartStreamLoop] at ht
        exact ht
      | some errStr =>
        rcases hsc : shouldRetryRestartVbuckets ts resp errStr with ⟨newTs, e2⟩
        cases e2 with
        | some e =>
          simp [restartStreamLoop, hsc] at ht
          exact ht
        | none =>
          simp [restartStreamLoop, hsc] at ht
          rcases ht with ht | ht
          · exact ht
          · exact ih newTs t ht

theorem deleteInstancesLoop_calls (topic : String) :
    ∀ events : List DelEvent, ∀ t ∈ (deleteInstancesLoop topic events).2, t = topic := by
  intro events
  induction events with
  | nil => intro t ht; simp [deleteInstancesLoop] at ht
  | cons ev rest ih =>
    intro t ht
    cases ev with
    | kill => simp [deleteInstancesLoop] at ht
    | call err =>
      cases err with
      | none =>
        simp [deleteInstancesLoop] at ht
        exact ht
      | some errStr =>
        by_cases hm : strContains errStr ErrorTopicMissing = true
        · simp [deleteInstancesLoop, hm] at ht
          exact ht
        · simp [deleteInstancesLoop, hm] at ht
          rcases ht with ht | ht
          · exact ht
          · exact ih t ht

theorem repairEndpointLoop_calls (topic : String) :
    ∀ events : List DelEvent, ∀ t ∈ (repairEndpointLoop topic events).2, t = topic := by
  intro events
  induction events with
  | nil => intro t ht; simp [repairEndpointLoop] at ht
  | cons ev rest ih =>
    intro t ht
    cases ev with
    | kill => simp [repairEndpointLoop] at ht
    | call err =>
      cases err with
      | none =>
        simp [repairEndpointLoop] at ht
        exact ht
      | some errStr =>
        by_cases hm : strContains errStr ErrorTopicMissing = true
        · simp [repairEndpointLoop, hm] at ht
          exact ht
        · simp [repairEndpointLoop, hm] at ht
          rcases ht with ht | ht
          · exact ht
          · exact ih t ht

/-- C10: a stream id that is neither `MAINT_STREAM` nor `INIT_STREAM`
maps to the empty topic `""`, and every worker retry loop of the
orchestrator operations then issues all of its producer calls against
the empty topic name instead of failing. -/
theorem c10_unknown_stream_empty_topic :
    ∀ streamId : StreamId, streamId ≠ MAINT_STREAM → streamId ≠ INIT_STREAM →
      getTopicForStreamId streamId = "" ∧
      (∀ (ts : List TsVbuuid) (events : List AddEvent),
        ∀ t ∈ (addInstancesLoop (getTopicForStreamId streamId) ts events).2, t = "") ∧
      (∀ events : List DelEvent,
        ∀ t ∈ (deleteInstancesLoop (getTopicForStreamId streamId) events).2, t = "") ∧
      (∀ events : List DelEvent,
        ∀ t ∈ (repairEndpointLoop (getTopicForStreamId streamId) events).2, t = "") ∧
      (∀ (ts : List TsVbuuid) (events : List AddEvent),
        ∀ t ∈ (restartStreamLoop (getTopicForStreamId streamId) ts events).2, t = "") := by
  intro s h1 h2
  have htop : getTopicForStreamId s = "" := by simp [getTopicForStreamId, h1, h2]
  refine ⟨htop, ?_, ?_, ?_, ?_⟩
  · intro ts events t ht
    rw [htop] at ht
    exact addInstancesLoop_calls "" events ts t ht
  · intro events t ht
    rw [htop] at ht
    exact deleteInstancesLoop_calls "" events t ht
  · intro events t ht
    rw [htop] at ht
    exact repairEndpointLoop_calls "" events t ht
  · intro ts events t ht
    rw [htop] at ht
    exact restartStreamLoop_calls "" events ts t ht

/-- C10 witness: stream id 7 is neither of the two known ids; its topic
is `""` and a delete worker's single call goes out against topic `""`. -/
theorem c10_unknown_stream_empty_topic_witness :
    getTopicForStreamId 7 = "" ∧
    (∀ t ∈ (deleteInstancesLoop (getTopicForStreamId 7) [.call none]).2, t = "") :=
  ⟨(c10_unknown_stream_empty_topic 7 (by decide) (by decide)).1,
   (c10_unknown_stream_empty_topic 7 (by decide) (by decide)).2.2.1 [.call none]⟩

/-- C3 (amended): an RPC failure classified as a node-retry kind
(`ErrorNotMyVbucket` / `ErrorInvalidVbucketBranch` / `ErrorInvalidKVaddrs`)
terminates the `addInstances` worker immediately with the corresponding
error code (`ERROR_STREAM_WRONG_VBUCKET` / `ERROR_STREAM_INVALID_TIMESTAMP`
/ `ERROR_STREAM_INVALID_KVADDRS`), with no rollback reconciliation and
regardless of the remaining time before the elapsed-time ceiling; the
orchestrator's round loop classifies those codes as retryable and starts
a fresh round instead of returning them; rollback reconciliation inside
the worker loop happens only for errors matching none of the classified
strings. -/
theorem c3_node_error_scope_amended :
    (∀ (topic : String) (ts : List TsVbuuid) (resp : TopicResponse) (errStr : String)
      (rest : List AddEvent),
      strContains errStr ErrorTopicExist = false →
      strContains errStr ErrorInconsistentFeed = false →
      strContains errStr ErrorNotMyVbucket = true →
      addInstancesLoop topic ts (.call resp (some errStr) :: rest)
        = (.fail resp.activeTimestamps ⟨.ERROR_STREAM_WRONG_VBUCKET⟩, [topic]))
    ∧ (∀ (topic : String) (ts : List TsVbuuid) (resp : TopicResponse) (errStr : String)
      (rest : List AddEvent),
      strContains errStr ErrorTopicExist = false →
      strContains errStr ErrorInconsistentFeed = false →
      strContains errStr ErrorNotMyVbucket = false →
      strContains errStr ErrorInvalidVbucketBranch = true →
      addInstancesLoop topic ts (.call resp (some errStr) :: rest)
        = (.fail resp.activeTimestamps ⟨.ERROR_STREAM_INVALID_TIMESTAMP⟩, [topic]))
    ∧ (∀ (topic : String) (ts : List TsVbuuid) (resp : TopicResponse) (errStr : String)
      (rest : List AddEvent),
      strContains errStr ErrorTopicExist = false →
      strContains errStr ErrorInconsistentFeed = false →
      strContains errStr ErrorNotMyVbucket = false →
      strContains errStr ErrorInvalidVbucketBranch = false →
      strContains errStr ErrorInvalidKVaddrs = true →
      addInstancesLoop topic ts (.call resp (some errStr) :: rest)
        = (.fail resp.activeTimestamps ⟨.ERROR_STREAM_INVALID_KVADDRS⟩, [topic]))
    ∧ (∀ (buckets : List String) (env : RoundEnv) (rest : List RoundEnv)
      (nodes : List String) (e : Err) (ats : List TsVbuuid) (rem : List WorkerResult),
      env.nodeList = .ok nodes → joinWorkers env.results [] = .errorAt e ats rem →
      (e.code = .ERROR_STREAM_WRONG_VBUCKET ∨ e.code = .ERROR_STREAM_INVALID_TIMESTAMP ∨
        e.code = .ERROR_STREAM_INVALID_KVADDRS) →
      addIndexRounds buckets (env :: rest)
        = ⟨(addIndexRounds buckets rest).result, (addIndexRounds buckets rest).monitored,
           (addIndexRounds buckets rest).topoCalls + 1,
           nodes ++ (addIndexRounds buckets rest).spawned,
           (rem.map fun r => r.server) ++ (addIndexRounds buckets rest).kills⟩)
    ∧ (∀ (topic : String) (ts : List TsVbuuid) (resp : TopicResponse) (errStr : String)
      (rest : List AddEvent),
      strContains errStr ErrorTopicExist = false →
      strContains errStr ErrorInconsistentFeed = false →
      strContains errStr ErrorNotMyVbucket = false →
      strContains errStr ErrorInvalidVbucketBranch = false →
      strContains errStr ErrorInvalidKVaddrs = false →
      addInstancesLoop topic ts (.call resp (some errStr) :: rest)
        = ((addInstancesLoop topic
              (ts.map fun t => recomputeRequestTimestamp t resp.rollbackTimestamps) rest).1,
           topic :: (addInstancesLoop topic
              (ts.map fun t => recomputeRequestTimestamp t resp.rollbackTimestamps) rest).2)) := by
  refine ⟨?_, ?_, ?_, ?_, ?_⟩
  · intro topic ts resp errStr rest h1 h2 h3
    simp [addInstancesLoop, shouldRetryAddInstances, h1, h2, h3]
  · intro topic ts resp errStr rest h1 h2 h3 h4
    simp [addInstancesLoop, shouldRetryAddInstances, h1, h2, h3, h4]
  · intro topic ts resp errStr rest h1 h2 h3 h4 h5
    simp [addInstancesLoop, shouldRetryAddInstances, h1, h2, h3, h4, h5]
  · intro buckets env rest nodes e ats rem h1 h2 h3
    rcases h3 with h3 | h3 | h3 <;> simp [addIndexRounds, h1, h2, h3]
  · intro topic ts resp errStr rest h1 h2 h3 h4 h5
    simp [addInstancesLoop, shouldRetryAddInstances, h1, h2, h3, h4, h5]

/-- C3 witness: a call failing with exactly the not-my-vbucket error
string terminates the worker at once with
`ERROR_STREAM_WRONG_VBUCKET`, and a round receiving that code first
retries instead of returning it. -/
theorem c3_node_error_scope_amended_witness :
    addInstancesLoop "t" [] [.call ⟨[], []⟩ (some ErrorNotMyVbucket)]
      = (.fail [] ⟨.ERROR_STREAM_WRONG_VBUCKET⟩, ["t"]) ∧
    addIndexRounds ["b"] [⟨.ok ["n"], [⟨"n", [], some ⟨.ERROR_STREAM_WRONG_VBUCKET⟩⟩]⟩]
      = ⟨.pending, [], 1, ["n"], []⟩ :=
  ⟨c3_node_error_scope_amended.1 "t" [] ⟨[], []⟩ ErrorNotMyVbucket []
     (by decide) (by decide) (by decide),
   (c3_node_error_scope_amended.2.2.2.1 ["b"]
     ⟨.ok ["n"], [⟨"n", [], some ⟨.ERROR_STREAM_WRONG_VBUCKET⟩⟩]⟩ [] ["n"]
     ⟨.ERROR_STREAM_WRONG_VBUCKET⟩ [] [] rfl rfl (Or.inl rfl)).trans (by decide)⟩

/-- C3 counterexample: with one more scheduler step available before the
elapsed-time ceiling (the event list is not exhausted and the outcome is
not `timedOut`), a call error containing `ErrorNotMyVbucket` still
terminates the worker immediately with `ERROR_STREAM_WRONG_VBUCKET`
after a single call, performing no rollback reconciliation — the claim
that such node-retry errors are resolved inside the worker loop and do
not terminate it unless the ceiling is hit fails. -/
theorem c3_counterexample :
    addInstancesLoop "t" [] [.call ⟨[], []⟩ (some ErrorNotMyVbucket), .kill]
      = (.fail [] ⟨.ERROR_STREAM_WRONG_VBUCKET⟩, ["t"]) ∧
    (.fail [] ⟨.ERROR_STREAM_WRONG_VBUCKET⟩ : AddTermination) ≠ .timedOut := by
  constructor
  · rfl
  · decide
